import Mathlib

/-!
git-credential-kwallet: key composition and the get / store / erase workflows.

A shallow embedding of `src/Credential.cpp`.

* `Credential`, `WalletSettings` are the two records of the program.
* `composeKeyName`, `composeKeyNameNoUsername` are the two pure key composers.
* `getPassword`, `get`, `store`, `erase` are the workflows.  They talk to the
  KWallet library, which is not part of the repository; it is taken as a
  parameter `Backend σ H` (`σ` the wallet contents, `H` the open handle).
  The calls `createFolder`, `writePassword` and `removeEntry` are transitions
  of `σ`; the static existence queries, `openWallet`, `hasFolder`,
  `setFolder` and `readPassword` are queries on `σ`.  Every function of a
  backend is arbitrary, so every failure behaviour is covered.
* Every workflow returns, next to its result, the list of backend calls and
  diagnostics it made, in order (`Call`).
* `kvWallet` is a concrete backend: one key-value map per folder.
-/

namespace KWalletCredential

/-- Modelled from the spec: the declaration of `Credential` in `Credential.hpp`
is not among the sources.  A record of four strings, `protocol`, `host`,
`username` and `password`, the members `Credential.cpp` reads and assigns; an
absent field is the empty string, which is what a default-constructed
`Credential` holds in every field. -/
structure Credential where
  protocol : String := ""
  host : String := ""
  username : String := ""
  password : String := ""
deriving DecidableEq, Repr

/-- Modelled from the spec: the declaration of `WalletSettings` in
`Credential.hpp` is not among the sources.  The store name and the folder
inside it, the two members `Credential.cpp` reads. -/
structure WalletSettings where
  wallet : String
  folder : String
deriving DecidableEq, Repr

/-- One observable step of a workflow: a call into KWallet or a line on the debug stream. -/
inductive Call where
  | folderDoesNotExist (wallet folder : String)
  | keyDoesNotExist (wallet folder key : String)
  | openWallet (wallet : String)
  | hasFolder (folder : String)
  | createFolder (folder : String)
  | setFolder (folder : String)
  | readPassword (key : String)
  | writePassword (key value : String)
  | removeEntry (key : String)
  | debug (msg : String)
deriving DecidableEq, Repr

/-- The calls that change the contents of the wallet. -/
def Call.isMutating : Call → Bool
  | .createFolder _ => true
  | .writePassword _ _ => true
  | .removeEntry _ => true
  | _ => false

/-- The `writePassword` calls. -/
def Call.isWrite : Call → Bool
  | .writePassword _ _ => true
  | _ => false

/-- The `removeEntry` calls. -/
def Call.isRemove : Call → Bool
  | .removeEntry _ => true
  | _ => false

/-- The `createFolder` calls. -/
def Call.isCreateFolder : Call → Bool
  | .createFolder _ => true
  | _ => false

/-- The part of the KWallet API the program uses.  `σ` is the state of the
wallet daemon, `H` an open `Wallet` object.  `openWallet` gives `none` for a
null pointer; `readPassword`, `writePassword` and `removeEntry` give the
integer return code of the library (`0` is success). -/
structure Backend (σ H : Type) where
  folderDoesNotExist : σ → String → String → Bool
  keyDoesNotExist : σ → String → String → String → Bool
  openWallet : σ → String → Option H
  hasFolder : σ → H → String → Bool
  createFolder : σ → H → String → σ × Bool
  setFolder : σ → H → String → H × Bool
  readPassword : σ → H → String → Int × String
  writePassword : σ → H → String → String → σ × Int
  removeEntry : σ → H → String → σ × Int

/-- Source: `composeKeyName`, Credential.cpp lines 51-66. -/
def composeKeyName (credential : Credential) : String :=
  let result := ""
  let result := if !credential.protocol.isEmpty then result ++ (credential.protocol ++ "://") else result
  let result := if !credential.username.isEmpty then result ++ (credential.username.push '@') else result
  let result := if !credential.host.isEmpty then result ++ (credential.host.push '/') else result
  result

/-- Source: `composeKeyNameNoUsername`, Credential.cpp lines 68-79. -/
def composeKeyNameNoUsername (credential : Credential) : String :=
  let result := ""
  let result := if !credential.protocol.isEmpty then result ++ (credential.protocol ++ "://") else result
  let result := if !credential.host.isEmpty then result ++ (credential.host.push '/') else result
  result

/-- Source: `getPassword`, Credential.cpp lines 81-106.  Returns the calls made
and the string behind the returned pointer. -/
def getPassword {σ H : Type} (B : Backend σ H) (s : σ) (key : String)
    (settings : WalletSettings) : List Call × String :=
  let t := [Call.keyDoesNotExist settings.wallet settings.folder key]
  if B.keyDoesNotExist s settings.wallet settings.folder key then
    (t ++ [.debug "credentials not found"], "")
  else
    let t := t ++ [.openWallet settings.wallet]
    match B.openWallet s settings.wallet with
    | none => (t ++ [.debug "couldn't open wallet"], "")
    | some wallet =>
      let t := t ++ [.setFolder settings.folder]
      match B.setFolder s wallet settings.folder with
      | (_, false) => (t ++ [.debug "couldn't open folder"], "")
      | (wallet, true) =>
        let t := t ++ [.readPassword key]
        match B.readPassword s wallet key with
        | (rc, buffer) =>
          if rc != 0 then (t ++ [.debug "couldn't read password"], "")
          else (t, buffer)

/-- Source: `get`, Credential.cpp lines 136-156.  Returns the wallet state
after the run, the calls made and the returned credential. -/
def get {σ H : Type} (B : Backend σ H) (s : σ) (credential : Credential)
    (settings : WalletSettings) : σ × List Call × Credential :=
  let t := [Call.folderDoesNotExist settings.wallet settings.folder]
  if B.folderDoesNotExist s settings.wallet settings.folder then
    (s, t ++ [.debug "no such folder"], {})
  else if credential.username.isEmpty then
    let key := composeKeyName credential
    let username := getPassword B s key settings
    let t := t ++ username.1
    if username.2.isEmpty then
      (s, t, {})
    else
      let credential := { credential with username := username.2 }
      let key := composeKeyName credential
      let password := getPassword B s key settings
      (s, t ++ password.1, { credential with password := password.2 })
  else
    let key := composeKeyName credential
    let password := getPassword B s key settings
    (s, t ++ password.1, { credential with password := password.2 })

/-- Source: `store`, Credential.cpp lines 170-193: what `store` does once the
folder is known to exist, on the open handle `wallet` and after the calls `t`. -/
def storeInFolder {σ H : Type} (B : Backend σ H) (s : σ) (wallet : H) (t : List Call)
    (credential : Credential) (settings : WalletSettings) : σ × List Call :=
  let t := t ++ [.setFolder settings.folder]
  match B.setFolder s wallet settings.folder with
  | (_, false) => (s, t ++ [.debug "couldn't open folder"])
  | (wallet, true) =>
    if credential.username.isEmpty then
      (s, t ++ [.debug "no username specified"])
    else if credential.password.isEmpty then
      (s, t ++ [.debug "no password specified"])
    else
      let key := composeKeyNameNoUsername credential
      let w1 := B.writePassword s wallet key credential.username
      let t := t ++ [.writePassword key credential.username]
      let t := if w1.2 != 0 then t ++ [.debug "couldn't write no username correspondence"] else t
      let keyName := composeKeyName credential
      let w2 := B.writePassword w1.1 wallet keyName credential.password
      let t := t ++ [.writePassword keyName credential.password]
      let t := if w2.2 != 0 then t ++ [.debug "couldn't write password"] else t
      (w2.1, t)

/-- Source: `store`, Credential.cpp lines 158-194.  Returns the wallet state
after the run and the calls made. -/
def store {σ H : Type} (B : Backend σ H) (s : σ) (credential : Credential)
    (settings : WalletSettings) : σ × List Call :=
  let t := [Call.openWallet settings.wallet]
  match B.openWallet s settings.wallet with
  | none => (s, t ++ [.debug "couldn't open wallet"])
  | some wallet =>
    let t := t ++ [.hasFolder settings.folder]
    if !B.hasFolder s wallet settings.folder then
      let t := t ++ [.createFolder settings.folder]
      match B.createFolder s wallet settings.folder with
      | (s1, false) => (s1, t ++ [.debug "couldn't create folder"])
      | (s1, true) => storeInFolder B s1 wallet t credential settings
    else
      storeInFolder B s wallet t credential settings

/-- Source: `erase`, Credential.cpp lines 211-232: what `erase` does once the
username is known, after the calls `t`. -/
def eraseResolved {σ H : Type} (B : Backend σ H) (s : σ) (t : List Call)
    (credential : Credential) (settings : WalletSettings) : σ × List Call :=
  let keyName := composeKeyName credential
  let t := t ++ [.keyDoesNotExist settings.wallet settings.folder keyName]
  if B.keyDoesNotExist s settings.wallet settings.folder keyName then
    (s, t ++ [.debug "credentials not found"])
  else
    let t := t ++ [.openWallet settings.wallet]
    match B.openWallet s settings.wallet with
    | none => (s, t ++ [.debug "couldn't open wallet"])
    | some wallet =>
      let t := t ++ [.setFolder settings.folder]
      match B.setFolder s wallet settings.folder with
      | (_, false) => (s, t ++ [.debug "couldn't open folder"])
      | (wallet, true) =>
        let r1 := B.removeEntry s wallet keyName
        let t := t ++ [.removeEntry keyName]
        let t := if r1.2 != 0 then t ++ [.debug "couldn't delete entry"] else t
        let key := composeKeyNameNoUsername credential
        let r2 := B.removeEntry r1.1 wallet key
        let t := t ++ [.removeEntry key]
        let t := if r2.2 != 0 then t ++ [.debug "couldn't delete no username entry"] else t
        (r2.1, t)

/-- Source: `erase`, Credential.cpp lines 196-233.  Returns the wallet state
after the run and the calls made. -/
def erase {σ H : Type} (B : Backend σ H) (s : σ) (credential : Credential)
    (settings : WalletSettings) : σ × List Call :=
  let t := [Call.folderDoesNotExist settings.wallet settings.folder]
  if B.folderDoesNotExist s settings.wallet settings.folder then
    (s, t ++ [.debug "no such folder"])
  else if credential.username.isEmpty then
    let key := composeKeyName credential
    let username := getPassword B s key settings
    let t := t ++ username.1
    if username.2.isEmpty then
      (s, t ++ [.debug "no username specified"])
    else
      eraseResolved B s t { credential with username := username.2 } settings
  else
    eraseResolved B s t credential settings

/-! ## A concrete wallet: one key-value map per folder -/

/-- The contents of the wallet daemon: the folders that exist, as (wallet,
folder) pairs, and the entries, keyed by (wallet, folder, key); the first entry
of a key is the current one. -/
structure KV where
  folders : List (String × String) := []
  entries : List ((String × String × String) × String) := []
deriving DecidableEq, Repr

/-- An open wallet: its name and the folder selected in it. -/
structure Handle where
  wallet : String
  folder : String
deriving DecidableEq, Repr

/-- The key-value wallet, a reference instance of `Backend`: named folders
containing key-value string pairs.  Opening, creating a folder, selecting a
folder and reading an existing key always succeed; a read returns the last
value written under the key; a key does not exist when its folder is not
listed or it has no entry.  `writePassword` and `removeEntry` fail (return code `-1`, no
change) on exactly the keys for which `fails` is true. -/
def kvWallet (fails : String → Bool) : Backend KV Handle where
  folderDoesNotExist s w f := !decide ((w, f) ∈ s.folders)
  keyDoesNotExist s w f k := !(decide ((w, f) ∈ s.folders) && (s.entries.lookup (w, f, k)).isSome)
  openWallet _ w := some ⟨w, ""⟩
  hasFolder s h f := decide ((h.wallet, f) ∈ s.folders)
  createFolder s h f := ({ s with folders := (h.wallet, f) :: s.folders }, true)
  setFolder _ h f := ({ h with folder := f }, true)
  readPassword s h k :=
    match s.entries.lookup (h.wallet, h.folder, k) with
    | some v => (0, v)
    | none => (-1, "")
  writePassword s h k v :=
    if fails k then (s, -1)
    else ({ s with entries := ((h.wallet, h.folder, k), v) :: s.entries }, 0)
  removeEntry s h k :=
    if fails k then (s, -1)
    else if (s.entries.lookup (h.wallet, h.folder, k)).isSome then
      ({ s with entries := s.entries.filter (fun e => e.1 != (h.wallet, h.folder, k)) }, 0)
    else (s, -1)

/-- The well-behaved wallet: no write and no delete fails. -/
def goodWallet : Backend KV Handle := kvWallet (fun _ => false)

/-- The settings of the examples. -/
def gitFolder : WalletSettings := ⟨"kdewallet", "git"⟩

/-- The credential of the specification's examples. -/
def alice : Credential :=
  { protocol := "https", host := "example.com", username := "alice", password := "secret" }

/-- The state the examples start from after a successful `store` of `alice`. -/
def aliceStored : KV :=
  { folders := [("kdewallet", "git")],
    entries := [(("kdewallet", "git", "https://alice@example.com/"), "secret"),
      (("kdewallet", "git", "https://example.com/"), "alice")] }

/-! ## The resolution step as the specification words it -/

/-- Specification of `get` (section 4.3, steps 1-4): as `get`, but the username
is resolved by reading the username-discovery key. -/
def get_spec {σ H : Type} (B : Backend σ H) (s : σ) (credential : Credential)
    (settings : WalletSettings) : σ × List Call × Credential :=
  let t := [Call.folderDoesNotExist settings.wallet settings.folder]
  if B.folderDoesNotExist s settings.wallet settings.folder then
    (s, t ++ [.debug "no such folder"], {})
  else if credential.username.isEmpty then
    let username := getPassword B s (composeKeyNameNoUsername credential) settings
    if username.2.isEmpty then
      (s, t ++ username.1, {})
    else
      let credential := { credential with username := username.2 }
      let password := getPassword B s (composeKeyName credential) settings
      (s, t ++ username.1 ++ password.1, { credential with password := password.2 })
  else
    let password := getPassword B s (composeKeyName credential) settings
    (s, t ++ password.1, { credential with password := password.2 })

/-- Specification of `erase` (section 4.3, steps 1-6): as `erase`, but the
username is resolved by reading the username-discovery key. -/
def erase_spec {σ H : Type} (B : Backend σ H) (s : σ) (credential : Credential)
    (settings : WalletSettings) : σ × List Call :=
  let t := [Call.folderDoesNotExist settings.wallet settings.folder]
  if B.folderDoesNotExist s settings.wallet settings.folder then
    (s, t ++ [.debug "no such folder"])
  else if credential.username.isEmpty then
    let username := getPassword B s (composeKeyNameNoUsername credential) settings
    if username.2.isEmpty then
      (s, t ++ username.1 ++ [.debug "no username specified"])
    else
      eraseResolved B s (t ++ username.1) { credential with username := username.2 } settings
  else
    eraseResolved B s t credential settings

/-- The username that `get` and `erase` go on with: the given one, or the value
read under the username-discovery key when none is given. -/
def resolvedCredential {σ H : Type} (B : Backend σ H) (s : σ) (credential : Credential)
    (settings : WalletSettings) : Credential :=
  if credential.username.isEmpty then
    { credential with
      username := (getPassword B s (composeKeyNameNoUsername credential) settings).2 }
  else credential

/-! ## Strings -/

theorem isEmpty_eq_true (s : String) : s.isEmpty = true ↔ s = "" :=
  String.isEmpty_iff s

theorem isEmpty_eq_false (s : String) : s.isEmpty = false ↔ s ≠ "" := by
  rw [Ne, ← isEmpty_eq_true s]; simp

theorem isEmpty_empty : "".isEmpty = true := by decide

theorem push_at (s : String) : s.push '@' = s ++ "@" := by
  apply String.ext; simp

theorem push_slash (s : String) : s.push '/' = s ++ "/" := by
  apply String.ext; simp

/-- With no username the two keys coincide. -/
theorem composeKeyName_of_username_empty (c : Credential) (h : c.username = "") :
    composeKeyName c = composeKeyNameNoUsername c := by
  simp [composeKeyName, composeKeyNameNoUsername, h, isEmpty_empty]

/-- The full key does not depend on the password. -/
theorem composeKeyName_password (c : Credential) (p : String) :
    composeKeyName { c with password := p } = composeKeyName c := rfl

/-- With a username the two keys differ: the full key is longer. -/
theorem composeKeyNameNoUsername_ne (c : Credential) (h : c.username ≠ "") :
    composeKeyNameNoUsername c ≠ composeKeyName c := by
  intro e
  have hl := congrArg String.length e
  have hu : (c.username.isEmpty) = false := (isEmpty_eq_false _).2 h
  simp only [composeKeyName, composeKeyNameNoUsername, hu] at hl
  by_cases hp : c.protocol.isEmpty <;> by_cases hh : c.host.isEmpty <;>
    simp [hp, hh, String.length_push] at hl

/-! ## Key format -/

/-- C2. Key format: the full key is the protocol segment, the username segment
and the host segment in this order, the discovery key is the same without the
username segment, and a segment is present exactly when its field is
non-empty; the two keys of the `https` / `example.com` / `alice` credential
and of the all-empty credential are as the specification lists them. -/
theorem composeKeyName_format :
    (∀ c : Credential,
      composeKeyName c =
          (if c.protocol = "" then "" else c.protocol ++ "://") ++
          (if c.username = "" then "" else c.username ++ "@") ++
          (if c.host = "" then "" else c.host ++ "/") ∧
      composeKeyNameNoUsername c =
          (if c.protocol = "" then "" else c.protocol ++ "://") ++
          (if c.host = "" then "" else c.host ++ "/")) ∧
    composeKeyName { protocol := "https", host := "example.com", username := "alice" }
      = "https://alice@example.com/" ∧
    composeKeyNameNoUsername { protocol := "https", host := "example.com", username := "alice" }
      = "https://example.com/" ∧
    composeKeyName {} = "" ∧ composeKeyNameNoUsername {} = "" := by
  refine ⟨fun c => ⟨?_, ?_⟩, by decide, by decide, by decide, by decide⟩
  · by_cases hp : c.protocol = "" <;> by_cases hu : c.username = "" <;>
      by_cases hh : c.host = "" <;>
      simp [composeKeyName, hp, hu, hh, isEmpty_empty, isEmpty_eq_true, isEmpty_eq_false, push_at, push_slash]
  · by_cases hp : c.protocol = "" <;> by_cases hh : c.host = "" <;>
      simp [composeKeyNameNoUsername, hp, hh, isEmpty_empty, isEmpty_eq_true, isEmpty_eq_false, push_at,
        push_slash]

/-! ## Username resolution -/

/-- C7. Username resolution uses the discovery key: with an empty username the
key that `get` and `erase` compose with `composeKeyName` is the
username-discovery key, so on every backend, state and credential `get` and
`erase` run exactly as their specifications, which read the discovery key; the
discovery key does not depend on the username, so it is the key under which
`store` wrote the username. -/
theorem resolution_uses_discovery_key :
    (∀ c : Credential, c.username = "" → composeKeyName c = composeKeyNameNoUsername c) ∧
    (∀ (c : Credential) (u : String),
      composeKeyNameNoUsername { c with username := u } = composeKeyNameNoUsername c) ∧
    (∀ (σ H : Type) (B : Backend σ H) (s : σ) (c : Credential) (settings : WalletSettings),
      get B s c settings = get_spec B s c settings ∧
      erase B s c settings = erase_spec B s c settings) := by
  refine ⟨composeKeyName_of_username_empty, fun _ _ => rfl, fun σ H B s c settings => ⟨?_, ?_⟩⟩
  · unfold get get_spec
    by_cases hu : c.username = ""
    · simp [composeKeyName_of_username_empty c hu, List.append_assoc]
    · simp [(isEmpty_eq_false _).2 hu]
  · unfold erase erase_spec
    by_cases hu : c.username = ""
    · simp [composeKeyName_of_username_empty c hu, List.append_assoc]
    · simp [(isEmpty_eq_false _).2 hu]

/-- C7 at the credential `https` / `example.com` without a username. -/
theorem resolution_uses_discovery_key_witness :
    composeKeyName { protocol := "https", host := "example.com" } = "https://example.com/" ∧
    composeKeyNameNoUsername { protocol := "https", host := "example.com" }
      = "https://example.com/" ∧
    get goodWallet { folders := [("kdewallet", "git")] }
        { protocol := "https", host := "example.com" } gitFolder =
      get_spec goodWallet { folders := [("kdewallet", "git")] }
        { protocol := "https", host := "example.com" } gitFolder :=
  ⟨(resolution_uses_discovery_key.1 { protocol := "https", host := "example.com" } rfl).trans
      (by decide), by decide,
    (resolution_uses_discovery_key.2.2 KV Handle goodWallet { folders := [("kdewallet", "git")] }
      { protocol := "https", host := "example.com" } gitFolder).1⟩

/-! ## `get` on a missing folder -/

/-- C5. `get` on a missing folder: whatever the credential, when the target
folder does not exist `get` returns the credential with all four fields empty,
makes no call that changes the wallet, and leaves the wallet state as it was. -/
theorem get_missing_folder {σ H : Type} (B : Backend σ H) (s : σ) (c : Credential)
    (settings : WalletSettings)
    (hf : B.folderDoesNotExist s settings.wallet settings.folder = true) :
    (get B s c settings).2.2 = { protocol := "", host := "", username := "", password := "" } ∧
    (∀ e ∈ (get B s c settings).2.1, e.isMutating = false) ∧
    (get B s c settings).1 = s := by
  simp [get, hf, Call.isMutating]

/-- C5 on the empty key-value wallet. -/
theorem get_missing_folder_witness :
    (get goodWallet {} alice gitFolder).2.2 = {} ∧ (get goodWallet {} alice gitFolder).1 = {} :=
  have h := get_missing_folder goodWallet {} alice gitFolder (by decide)
  ⟨h.1, h.2.2⟩

/-! ## `store` -/

/-- What `storeInFolder` does with a credential that lacks a username or a
password: it selects the folder and stops, writing nothing. -/
theorem storeInFolder_rejected {σ H : Type} (B : Backend σ H) (s : σ) (wallet : H)
    (t : List Call) (c : Credential) (settings : WalletSettings)
    (h : c.username = "" ∨ c.password = "") :
    ∃ msg, storeInFolder B s wallet t c settings
      = (s, t ++ [.setFolder settings.folder, .debug msg]) := by
  unfold storeInFolder
  rcases hs : B.setFolder s wallet settings.folder with ⟨w, ok⟩
  cases ok
  · exact ⟨"couldn't open folder", by simp⟩
  · by_cases hu : c.username = ""
    · exact ⟨"no username specified", by simp [hu, isEmpty_empty]⟩
    · have hp : c.password = "" := h.resolve_left hu
      exact ⟨"no password specified", by simp [hp, isEmpty_empty, (isEmpty_eq_false _).2 hu]⟩

/-- C4. Precondition check of `store`: for a credential whose username or
password is empty, on every backend and state, the run of `store` contains no
`writePassword` call. -/
theorem store_precondition {σ H : Type} (B : Backend σ H) (s : σ) (c : Credential)
    (settings : WalletSettings) (h : c.username = "" ∨ c.password = "") :
    ∀ k v, Call.writePassword k v ∉ (store B s c settings).2 := by
  intro k v
  unfold store
  rcases ho : B.openWallet s settings.wallet with _ | wallet
  · simp
  · rcases hc : B.createFolder s wallet settings.folder with ⟨s1, ok⟩
    cases hf : B.hasFolder s wallet settings.folder
    · cases ok
      · simp [hf, hc]
      · obtain ⟨msg, hm⟩ := storeInFolder_rejected B s1 wallet
          [Call.openWallet settings.wallet, .hasFolder settings.folder,
            .createFolder settings.folder] c settings h
        simp [hf, hc, hm]
    · obtain ⟨msg, hm⟩ := storeInFolder_rejected B s wallet
          [Call.openWallet settings.wallet, .hasFolder settings.folder] c settings h
      simp [hf, hm]

/-- C4 on the key-value wallet, with an empty password. -/
theorem store_precondition_witness :
    Call.writePassword "https://example.com/" "alice" ∉
      (store goodWallet {} { alice with password := "" } gitFolder).2 ∧
    (store goodWallet {} { alice with password := "" } gitFolder).1.entries = [] :=
  ⟨store_precondition goodWallet {} { alice with password := "" } gitFolder (Or.inr rfl) _ _,
    by decide⟩

/-- C8. `store` creates the folder before it checks the credential: for a
credential without username or without password, on a backend whose wallet
opens, whose target folder is absent and whose `createFolder` and `setFolder`
succeed, the run of `store` is open, `hasFolder`, one `createFolder`,
`setFolder`, then the diagnostic; it ends in the state `createFolder` made, in
which the folder exists, and that state is not the initial one. -/
theorem store_creates_folder_before_check {σ H : Type} (B : Backend σ H) (s s1 : σ)
    (wallet wallet1 : H) (c : Credential) (settings : WalletSettings)
    (h : c.username = "" ∨ c.password = "")
    (ho : B.openWallet s settings.wallet = some wallet)
    (hf : B.hasFolder s wallet settings.folder = false)
    (hc : B.createFolder s wallet settings.folder = (s1, true))
    (hf1 : B.hasFolder s1 wallet settings.folder = true)
    (hs : B.setFolder s1 wallet settings.folder = (wallet1, true)) :
    store B s c settings =
      (s1, [.openWallet settings.wallet, .hasFolder settings.folder,
        .createFolder settings.folder, .setFolder settings.folder,
        .debug (if c.username = "" then "no username specified"
          else "no password specified")]) ∧
    s1 ≠ s := by
  constructor
  · unfold store storeInFolder
    by_cases hu : c.username = ""
    · simp [ho, hf, hc, hs, hu, isEmpty_empty]
    · have hp : c.password = "" := h.resolve_left hu
      simp [ho, hf, hc, hs, hu, hp, isEmpty_empty, (isEmpty_eq_false _).2 hu]
  · intro e
    rw [e, hf] at hf1
    exact Bool.false_ne_true hf1

/-- C8 on the empty key-value wallet: the rejected `store` leaves the folder behind. -/
theorem store_creates_folder_before_check_witness :
    store goodWallet {} { alice with password := "" } gitFolder =
      ({ folders := [("kdewallet", "git")] },
        [.openWallet "kdewallet", .hasFolder "git", .createFolder "git", .setFolder "git",
          .debug "no password specified"]) ∧
    ({ folders := [("kdewallet", "git")] } : KV) ≠ {} :=
  store_creates_folder_before_check goodWallet {} { folders := [("kdewallet", "git")] }
    ⟨"kdewallet", ""⟩ ⟨"kdewallet", "git"⟩ { alice with password := "" } gitFolder
    (Or.inr rfl) rfl (by decide) rfl (by decide) rfl

/-! ## `getPassword` only reads -/

/-- No call of `getPassword` changes the wallet. -/
theorem getPassword_readonly {σ H : Type} (B : Backend σ H) (s : σ) (key : String)
    (settings : WalletSettings) :
    ∀ e ∈ (getPassword B s key settings).1, e.isMutating = false := by
  unfold getPassword
  cases hk : B.keyDoesNotExist s settings.wallet settings.folder key
  · rcases ho : B.openWallet s settings.wallet with _ | wallet
    · simp [Call.isMutating]
    · rcases hs : B.setFolder s wallet settings.folder with ⟨w, ok⟩
      cases ok
      · simp [hs, Call.isMutating]
      · rcases hr : B.readPassword s w key with ⟨rc, buffer⟩
        by_cases h0 : rc = 0 <;> simp [hs, hr, h0, Call.isMutating]
  · simp [Call.isMutating]

theorem isMutating_of_isRemove (e : Call) (h : e.isRemove = true) : e.isMutating = true := by
  cases e <;> simp_all [Call.isRemove, Call.isMutating]

theorem getPassword_filter_isRemove {σ H : Type} (B : Backend σ H) (s : σ) (key : String)
    (settings : WalletSettings) :
    (getPassword B s key settings).1.filter Call.isRemove = [] := by
  rw [List.filter_eq_nil_iff]
  intro e he hr
  have := getPassword_readonly B s key settings e he
  rw [isMutating_of_isRemove e hr] at this
  exact Bool.noConfusion this

/-- The successful run of `getPassword`: the key exists, the wallet opens, the
folder is selected and the read returns code `0` with the value `v`. -/
theorem getPassword_found {σ H : Type} (B : Backend σ H) (s : σ) (key v : String)
    (settings : WalletSettings) (wallet wallet1 : H)
    (hk : B.keyDoesNotExist s settings.wallet settings.folder key = false)
    (ho : B.openWallet s settings.wallet = some wallet)
    (hs : B.setFolder s wallet settings.folder = (wallet1, true))
    (hr : B.readPassword s wallet1 key = (0, v)) :
    (getPassword B s key settings).2 = v := by
  simp [getPassword, hk, ho, hs, hr]

/-! ## `get`: the two-phase lookup -/

/-- The run of `get` in which both lookups succeed. -/
theorem get_found {σ H : Type} (B : Backend σ H) (s : σ) (c : Credential)
    (settings : WalletSettings) (wallet wallet1 : H) (u p : String)
    (hc : c.username = "")
    (hf : B.folderDoesNotExist s settings.wallet settings.folder = false)
    (ho : B.openWallet s settings.wallet = some wallet)
    (hs : B.setFolder s wallet settings.folder = (wallet1, true))
    (hk : B.keyDoesNotExist s settings.wallet settings.folder (composeKeyNameNoUsername c)
      = false)
    (hr : B.readPassword s wallet1 (composeKeyNameNoUsername c) = (0, u))
    (hu : u ≠ "")
    (hk2 : B.keyDoesNotExist s settings.wallet settings.folder
      (composeKeyName { c with username := u }) = false)
    (hr2 : B.readPassword s wallet1 (composeKeyName { c with username := u }) = (0, p)) :
    (get B s c settings).2.2 =
      { protocol := c.protocol, host := c.host, username := u, password := p } := by
  have h1 : (getPassword B s (composeKeyName c) settings).2 = u := by
    rw [composeKeyName_of_username_empty c hc]
    exact getPassword_found B s _ u settings wallet wallet1 hk ho hs hr
  have h2 : (getPassword B s (composeKeyName { c with username := u }) settings).2 = p :=
    getPassword_found B s _ p settings wallet wallet1 hk2 ho hs hr2
  unfold get
  simp only [hf, hc, isEmpty_empty, h1, (isEmpty_eq_false _).2 hu, h2]
  simp

/-- The run of `get` with a username given, when the lookup of the full key succeeds. -/
theorem get_found_given {σ H : Type} (B : Backend σ H) (s : σ) (c : Credential)
    (settings : WalletSettings) (wallet wallet1 : H) (p : String)
    (hc : c.username ≠ "")
    (hf : B.folderDoesNotExist s settings.wallet settings.folder = false)
    (ho : B.openWallet s settings.wallet = some wallet)
    (hs : B.setFolder s wallet settings.folder = (wallet1, true))
    (hk : B.keyDoesNotExist s settings.wallet settings.folder (composeKeyName c) = false)
    (hr : B.readPassword s wallet1 (composeKeyName c) = (0, p)) :
    (get B s c settings).2.2 = { c with password := p } := by
  have h2 : (getPassword B s (composeKeyName c) settings).2 = p :=
    getPassword_found B s _ p settings wallet wallet1 hk ho hs hr
  unfold get
  simp only [hf, (isEmpty_eq_false _).2 hc, h2]
  simp

/-- C1. Two-phase lookup of `get`: for a credential without username, on a
backend state where the folder exists, the wallet opens, the folder can be
selected, the discovery key holds a non-empty value `u` and the full key of
the credential with username `u` holds `p`, `get` returns the credential with
username `u` and password `p` (protocol and host as given). -/
theorem get_two_phase {σ H : Type} (B : Backend σ H) (s : σ) (c : Credential)
    (settings : WalletSettings) (wallet wallet1 : H) (u p : String)
    (hc : c.username = "")
    (hf : B.folderDoesNotExist s settings.wallet settings.folder = false)
    (ho : B.openWallet s settings.wallet = some wallet)
    (hs : B.setFolder s wallet settings.folder = (wallet1, true))
    (hk : B.keyDoesNotExist s settings.wallet settings.folder (composeKeyNameNoUsername c)
      = false)
    (hr : B.readPassword s wallet1 (composeKeyNameNoUsername c) = (0, u))
    (hu : u ≠ "")
    (hk2 : B.keyDoesNotExist s settings.wallet settings.folder
      (composeKeyName { c with username := u }) = false)
    (hr2 : B.readPassword s wallet1 (composeKeyName { c with username := u }) = (0, p)) :
    (get B s c settings).2.2.username = u ∧ (get B s c settings).2.2.password = p ∧
    (get B s c settings).2.2 =
      { protocol := c.protocol, host := c.host, username := u, password := p } := by
  have h := get_found B s c settings wallet wallet1 u p hc hf ho hs hk hr hu hk2 hr2
  rw [h]
  exact ⟨rfl, rfl, rfl⟩

/-- C1 on the example of the specification: the discovery key holds `alice`,
the full key `https://alice@example.com/` holds `secret`. -/
theorem get_two_phase_witness :
    (get goodWallet
        { folders := [("kdewallet", "git")],
          entries := [(("kdewallet", "git", "https://example.com/"), "alice"),
            (("kdewallet", "git", "https://alice@example.com/"), "secret")] }
        { protocol := "https", host := "example.com" } gitFolder).2.2 =
      { protocol := "https", host := "example.com", username := "alice",
        password := "secret" } :=
  (get_two_phase goodWallet _ { protocol := "https", host := "example.com" } gitFolder
    ⟨"kdewallet", ""⟩ ⟨"kdewallet", "git"⟩ "alice" "secret"
    rfl (by decide) rfl rfl (by decide) (by decide) (by decide) (by decide) (by decide)).2.2

/-! ## The two writes of `store`, the two deletes of `erase` -/

/-- The write step of `store`: once the folder is selected, a credential with
username and password gets exactly the two writes, discovery key first, and
the second write is made on the state the first one left, whatever its code. -/
theorem storeInFolder_writes {σ H : Type} (B : Backend σ H) (s : σ) (wallet wallet1 : H)
    (t : List Call) (c : Credential) (settings : WalletSettings)
    (hu : c.username ≠ "") (hp : c.password ≠ "")
    (ht : t.filter Call.isWrite = [])
    (hs : B.setFolder s wallet settings.folder = (wallet1, true)) :
    (storeInFolder B s wallet t c settings).2.filter Call.isWrite =
      [.writePassword (composeKeyNameNoUsername c) c.username,
        .writePassword (composeKeyName c) c.password] ∧
    (storeInFolder B s wallet t c settings).1 =
      (B.writePassword (B.writePassword s wallet1 (composeKeyNameNoUsername c) c.username).1
        wallet1 (composeKeyName c) c.password).1 := by
  unfold storeInFolder
  simp only [hs, (isEmpty_eq_false _).2 hu, (isEmpty_eq_false _).2 hp]
  constructor
  · split_ifs <;>
      first
      | contradiction
      | simp [List.filter_append, ht, Call.isWrite, List.filter_cons]
  · simp

/-- The delete step of `erase`: when the full key exists, the wallet opens and
the folder is selected, exactly the two deletes are made, full key first, and
the second delete is made on the state the first one left, whatever its code. -/
theorem eraseResolved_removes {σ H : Type} (B : Backend σ H) (s : σ) (wallet wallet1 : H)
    (t : List Call) (c : Credential) (settings : WalletSettings)
    (ht : t.filter Call.isRemove = [])
    (hk : B.keyDoesNotExist s settings.wallet settings.folder (composeKeyName c) = false)
    (ho : B.openWallet s settings.wallet = some wallet)
    (hs : B.setFolder s wallet settings.folder = (wallet1, true)) :
    (eraseResolved B s t c settings).2.filter Call.isRemove =
      [.removeEntry (composeKeyName c), .removeEntry (composeKeyNameNoUsername c)] ∧
    (eraseResolved B s t c settings).1 =
      (B.removeEntry (B.removeEntry s wallet1 (composeKeyName c)).1 wallet1
        (composeKeyNameNoUsername c)).1 := by
  unfold eraseResolved
  simp only [hk, ho, hs]
  constructor
  · split_ifs <;>
      first
      | contradiction
      | simp [List.filter_append, ht, Call.isRemove, List.filter_cons]
  · simp

/-- The abort of `erase` on an absent full key: one existence query, no delete. -/
theorem eraseResolved_absent {σ H : Type} (B : Backend σ H) (s : σ) (t : List Call)
    (c : Credential) (settings : WalletSettings)
    (hk : B.keyDoesNotExist s settings.wallet settings.folder (composeKeyName c) = true) :
    eraseResolved B s t c settings =
      (s, t ++ [.keyDoesNotExist settings.wallet settings.folder (composeKeyName c),
        .debug "credentials not found"]) := by
  simp [eraseResolved, hk]

/-- C3. Independent best-effort pair of key operations.  `store`: for a
credential with username and password, when the wallet opens, the folder
exists or is created and is selected, the `writePassword` calls of the run are
exactly the discovery key with the username and then the full key with the
password, the second made on the state left by the first whatever its return
code.  `erase`: when the folder exists, the username is given or resolved, the
full key exists, the wallet opens and the folder is selected, the
`removeEntry` calls of the run are exactly the full key and then the discovery
key, the second made on the state left by the first whatever its return code. -/
theorem best_effort_pair :
    (∀ (σ H : Type) (B : Backend σ H) (s s1 : σ) (wallet wallet1 : H) (c : Credential)
        (settings : WalletSettings),
      c.username ≠ "" → c.password ≠ "" →
      B.openWallet s settings.wallet = some wallet →
      ((B.hasFolder s wallet settings.folder = true ∧ s1 = s) ∨
        (B.hasFolder s wallet settings.folder = false ∧
          B.createFolder s wallet settings.folder = (s1, true))) →
      B.setFolder s1 wallet settings.folder = (wallet1, true) →
      (store B s c settings).2.filter Call.isWrite =
        [.writePassword (composeKeyNameNoUsername c) c.username,
          .writePassword (composeKeyName c) c.password] ∧
      (store B s c settings).1 =
        (B.writePassword (B.writePassword s1 wallet1 (composeKeyNameNoUsername c) c.username).1
          wallet1 (composeKeyName c) c.password).1) ∧
    (∀ (σ H : Type) (B : Backend σ H) (s : σ) (wallet wallet1 : H) (c : Credential)
        (settings : WalletSettings),
      B.folderDoesNotExist s settings.wallet settings.folder = false →
      (resolvedCredential B s c settings).username ≠ "" →
      B.keyDoesNotExist s settings.wallet settings.folder
        (composeKeyName (resolvedCredential B s c settings)) = false →
      B.openWallet s settings.wallet = some wallet →
      B.setFolder s wallet settings.folder = (wallet1, true) →
      (erase B s c settings).2.filter Call.isRemove =
        [.removeEntry (composeKeyName (resolvedCredential B s c settings)),
          .removeEntry (composeKeyNameNoUsername (resolvedCredential B s c settings))] ∧
      (erase B s c settings).1 =
        (B.removeEntry
          (B.removeEntry s wallet1 (composeKeyName (resolvedCredential B s c settings))).1
          wallet1 (composeKeyNameNoUsername (resolvedCredential B s c settings))).1) := by
  constructor
  · intro σ H B s s1 wallet wallet1 c settings hu hp ho hf hs
    unfold store
    simp only [ho]
    rcases hf with ⟨hf, rfl⟩ | ⟨hf, hc⟩
    · simp only [hf, Bool.not_true, Bool.false_eq_true, if_false]
      exact storeInFolder_writes B s1 wallet wallet1 _ c settings hu hp
        (by simp [Call.isWrite]) hs
    · simp only [hf, hc, Bool.not_false, if_true]
      exact storeInFolder_writes B s1 wallet wallet1 _ c settings hu hp
        (by simp [Call.isWrite]) hs
  · intro σ H B s wallet wallet1 c settings hf hu hk ho hs
    unfold erase
    simp only [hf, Bool.false_eq_true, if_false]
    by_cases he : c.username = ""
    · have hcomp := composeKeyName_of_username_empty c he
      have hres : resolvedCredential B s c settings =
          { c with username := (getPassword B s (composeKeyName c) settings).2 } := by
        simp [resolvedCredential, he, isEmpty_empty, hcomp]
      rw [hres] at hu hk ⊢
      simp only [he, isEmpty_empty, if_true, (isEmpty_eq_false _).2 hu,
        Bool.false_eq_true, if_false]
      exact eraseResolved_removes B s wallet wallet1 _ _ settings
        (by simp [List.filter_append, getPassword_filter_isRemove, Call.isRemove]) hk ho hs
    · have hres : resolvedCredential B s c settings = c := by
        simp [resolvedCredential, (isEmpty_eq_false _).2 he]
      rw [hres] at hk ⊢
      simp only [(isEmpty_eq_false _).2 he, Bool.false_eq_true, if_false]
      exact eraseResolved_removes B s wallet wallet1 _ _ settings
        (by simp [Call.isRemove]) hk ho hs

/-- C6. `erase` of an unknown credential: on every backend, when the full key
of the credential, with the username given or resolved through the discovery
key, does not exist in the folder, the run of `erase` contains no
`removeEntry` call and ends in the state it started in. -/
theorem erase_unknown {σ H : Type} (B : Backend σ H) (s : σ) (c : Credential)
    (settings : WalletSettings)
    (hk : B.keyDoesNotExist s settings.wallet settings.folder
      (composeKeyName (resolvedCredential B s c settings)) = true) :
    (∀ k, Call.removeEntry k ∉ (erase B s c settings).2) ∧ (erase B s c settings).1 = s := by
  have hg : ∀ key k, Call.removeEntry k ∉ (getPassword B s key settings).1 := by
    intro key k hm
    have := getPassword_readonly B s key settings _ hm
    simp [Call.isMutating] at this
  unfold erase
  cases hf : B.folderDoesNotExist s settings.wallet settings.folder
  · by_cases he : c.username = ""
    · have hcomp := composeKeyName_of_username_empty c he
      have hres : resolvedCredential B s c settings =
          { c with username := (getPassword B s (composeKeyName c) settings).2 } := by
        simp [resolvedCredential, he, isEmpty_empty, hcomp]
      rw [hres] at hk
      by_cases hu : (getPassword B s (composeKeyName c) settings).2 = ""
      · simp [he, isEmpty_empty, hu, hg]
      · simp only [he, isEmpty_empty, if_true, (isEmpty_eq_false _).2 hu,
          Bool.false_eq_true, if_false]
        rw [eraseResolved_absent B s _ _ settings hk]
        simp [hg]
    · have hres : resolvedCredential B s c settings = c := by
        simp [resolvedCredential, (isEmpty_eq_false _).2 he]
      rw [hres] at hk
      simp only [(isEmpty_eq_false _).2 he, Bool.false_eq_true, if_false]
      rw [eraseResolved_absent B s _ _ settings hk]
      simp
  · simp

/-- C3 on the key-value wallet: a `store` whose write of the discovery key
fails still writes the full key, and an `erase` without username deletes both
keys. -/
theorem best_effort_pair_witness :
    ((store (kvWallet (fun k => k == "https://example.com/")) {} alice gitFolder).2.filter
        Call.isWrite =
      [.writePassword "https://example.com/" "alice",
        .writePassword "https://alice@example.com/" "secret"] ∧
      (store (kvWallet (fun k => k == "https://example.com/")) {} alice gitFolder).1 =
        { folders := [("kdewallet", "git")],
          entries := [(("kdewallet", "git", "https://alice@example.com/"), "secret")] }) ∧
    ((erase goodWallet aliceStored { protocol := "https", host := "example.com" }
        gitFolder).2.filter Call.isRemove =
      [.removeEntry "https://alice@example.com/", .removeEntry "https://example.com/"] ∧
      (erase goodWallet aliceStored { protocol := "https", host := "example.com" }
        gitFolder).1 = { folders := [("kdewallet", "git")] }) :=
  ⟨best_effort_pair.1 KV Handle (kvWallet (fun k => k == "https://example.com/")) {}
      { folders := [("kdewallet", "git")] } ⟨"kdewallet", ""⟩ ⟨"kdewallet", "git"⟩ alice
      gitFolder (by decide) (by decide) rfl (Or.inr ⟨by decide, rfl⟩) rfl,
    best_effort_pair.2 KV Handle goodWallet aliceStored ⟨"kdewallet", ""⟩ ⟨"kdewallet", "git"⟩
      { protocol := "https", host := "example.com" } gitFolder (by decide) (by decide)
      (by decide) rfl rfl⟩

/-- C6 on the key-value wallet: the folder exists, the credential was never stored. -/
theorem erase_unknown_witness :
    (∀ k, Call.removeEntry k ∉
      (erase goodWallet aliceStored { alice with username := "bob" } gitFolder).2) ∧
    (erase goodWallet aliceStored { alice with username := "bob" } gitFolder).1 = aliceStored :=
  erase_unknown goodWallet aliceStored { alice with username := "bob" } gitFolder (by decide)

/-! ## The key-value wallet: `store` followed by `get` -/

/-- The state a successful `store` leaves in the key-value wallet: the folder
exists, and the password entry sits in front of the username entry. -/
theorem store_goodWallet (s : KV) (c : Credential) (settings : WalletSettings)
    (hu : c.username ≠ "") (hp : c.password ≠ "") :
    (store goodWallet s c settings).1 =
      { folders := if (settings.wallet, settings.folder) ∈ s.folders then s.folders
          else (settings.wallet, settings.folder) :: s.folders,
        entries :=
          ((settings.wallet, settings.folder, composeKeyName c), c.password) ::
          ((settings.wallet, settings.folder, composeKeyNameNoUsername c), c.username) ::
          s.entries } := by
  have hu1 := (isEmpty_eq_false _).2 hu
  have hp1 := (isEmpty_eq_false _).2 hp
  by_cases hm : (settings.wallet, settings.folder) ∈ s.folders <;>
    simp [store, storeInFolder, goodWallet, kvWallet, hm, hu1, hp1]

/-- After a successful `store` the folder exists. -/
theorem store_goodWallet_folder (s : KV) (c : Credential) (settings : WalletSettings)
    (hu : c.username ≠ "") (hp : c.password ≠ "") :
    (settings.wallet, settings.folder) ∈ (store goodWallet s c settings).1.folders := by
  rw [store_goodWallet s c settings hu hp]
  by_cases hm : (settings.wallet, settings.folder) ∈ s.folders <;> simp [hm]

/-- In the key-value wallet a listed folder exists. -/
theorem goodWallet_folderDoesNotExist (s : KV) (w f : String) (hm : (w, f) ∈ s.folders) :
    goodWallet.folderDoesNotExist s w f = false := by
  simp [goodWallet, kvWallet, hm]

/-- In the key-value wallet a key with an entry in a listed folder exists. -/
theorem goodWallet_keyDoesNotExist (s : KV) (w f k v : String) (hm : (w, f) ∈ s.folders)
    (hl : s.entries.lookup (w, f, k) = some v) :
    goodWallet.keyDoesNotExist s w f k = false := by
  simp [goodWallet, kvWallet, hm, hl]

/-- In the key-value wallet a read returns the current entry of the key. -/
theorem goodWallet_readPassword (s : KV) (w f k v : String)
    (hl : s.entries.lookup (w, f, k) = some v) :
    goodWallet.readPassword s ⟨w, f⟩ k = (0, v) := by
  simp [goodWallet, kvWallet, hl]

/-- After a successful `store` the discovery key holds the username. -/
theorem store_goodWallet_username (s : KV) (c : Credential) (settings : WalletSettings)
    (hu : c.username ≠ "") (hp : c.password ≠ "") :
    (store goodWallet s c settings).1.entries.lookup
      (settings.wallet, settings.folder, composeKeyNameNoUsername c) = some c.username := by
  have hb : ((settings.wallet, settings.folder, composeKeyNameNoUsername c) ==
      (settings.wallet, settings.folder, composeKeyName c)) = false := by
    rw [beq_eq_false_iff_ne]
    intro h
    exact composeKeyNameNoUsername_ne c hu (Prod.mk.inj (Prod.mk.inj h).2).2
  rw [store_goodWallet s c settings hu hp]
  simp [List.lookup, hb]

/-- After a successful `store` the full key holds the password. -/
theorem store_goodWallet_password (s : KV) (c : Credential) (settings : WalletSettings)
    (hu : c.username ≠ "") (hp : c.password ≠ "") :
    (store goodWallet s c settings).1.entries.lookup
      (settings.wallet, settings.folder, composeKeyName c) = some c.password := by
  rw [store_goodWallet s c settings hu hp]
  simp [List.lookup]

/-- C9. `store` / `get` round trip on the well-behaved key-value wallet: for
every credential with username and password and every initial state, `store`
followed by `get` on the credential with the same protocol and host and
neither username nor password returns the stored credential; the discovery
key and the full key of such a credential are different strings. -/
theorem store_get_round_trip (s : KV) (c : Credential) (settings : WalletSettings)
    (hu : c.username ≠ "") (hp : c.password ≠ "") :
    (get goodWallet (store goodWallet s c settings).1
      { protocol := c.protocol, host := c.host, username := "", password := "" }
      settings).2.2 = c ∧
    composeKeyNameNoUsername c ≠ composeKeyName c := by
  refine ⟨?_, composeKeyNameNoUsername_ne c hu⟩
  have hmem := store_goodWallet_folder s c settings hu hp
  have hl1 := store_goodWallet_username s c settings hu hp
  have hl2 := store_goodWallet_password s c settings hu hp
  rw [get_found goodWallet (store goodWallet s c settings).1
    { protocol := c.protocol, host := c.host, username := "", password := "" } settings
    ⟨settings.wallet, ""⟩ ⟨settings.wallet, settings.folder⟩ c.username c.password rfl
    (goodWallet_folderDoesNotExist _ _ _ hmem) rfl rfl
    (goodWallet_keyDoesNotExist _ _ _ _ _ hmem hl1)
    (goodWallet_readPassword _ _ _ _ _ hl1)
    hu
    (goodWallet_keyDoesNotExist _ _ _ _ _ hmem hl2)
    (goodWallet_readPassword _ _ _ _ _ hl2)]

/-- C9 on the example credential and the empty wallet. -/
theorem store_get_round_trip_witness :
    (get goodWallet (store goodWallet {} alice gitFolder).1
      { protocol := "https", host := "example.com", username := "", password := "" }
      gitFolder).2.2 = alice ∧
    composeKeyNameNoUsername alice ≠ composeKeyName alice :=
  store_get_round_trip {} alice gitFolder (by decide) (by decide)

/-! ## The full key is not injective -/

/-- On the key-value wallet, `get` with a username given returns the password
stored for any credential with the same full key. -/
theorem get_after_store_same_key (s : KV) (c1 c2 : Credential) (settings : WalletSettings)
    (hu : c1.username ≠ "") (hp : c1.password ≠ "") (hu2 : c2.username ≠ "")
    (hk : composeKeyName c2 = composeKeyName c1) :
    (get goodWallet (store goodWallet s c1 settings).1 c2 settings).2.2 =
      { c2 with password := c1.password } := by
  have hmem := store_goodWallet_folder s c1 settings hu hp
  have hl := store_goodWallet_password s c1 settings hu hp
  rw [← hk] at hl
  exact get_found_given goodWallet (store goodWallet s c1 settings).1 c2 settings
    ⟨settings.wallet, ""⟩ ⟨settings.wallet, settings.folder⟩ c1.password hu2
    (goodWallet_folderDoesNotExist _ _ _ hmem) rfl rfl
    (goodWallet_keyDoesNotExist _ _ _ _ _ hmem hl)
    (goodWallet_readPassword _ _ _ _ _ hl)

/-- C10. The full key is not injective in (username, host): the credentials
with protocol `p`, username `a@b`, host `c` and with protocol `p`, username
`a`, host `b@c` have the same protocol, non-empty usernames, different
(username, host) pairs and the same full key `p://a@b@c/`; so on the key-value
wallet, after `store` of the first, `get` on the second with its username
supplied returns the password of the first. -/
theorem composeKeyName_not_injective :
    ∃ c1 c2 : Credential,
      c1.protocol = c2.protocol ∧ c1.username ≠ "" ∧ c2.username ≠ "" ∧
      (c1.username, c1.host) ≠ (c2.username, c2.host) ∧
      composeKeyName c1 = composeKeyName c2 ∧ composeKeyName c1 = "p://a@b@c/" ∧
      c1.password ≠ "" ∧ c2.password = "" ∧
      ∀ (s : KV) (settings : WalletSettings),
        (get goodWallet (store goodWallet s c1 settings).1 c2 settings).2.2 =
          { c2 with password := c1.password } :=
  ⟨{ protocol := "p", host := "c", username := "a@b", password := "one" },
    { protocol := "p", host := "b@c", username := "a" },
    by decide, by decide, by decide, by decide, by decide, by decide, by decide, by decide,
    fun s settings => get_after_store_same_key s _ _ settings (by decide) (by decide)
      (by decide) (by decide)⟩

end KWalletCredential
